import Mathlib

/-!
# Canonical machine controller — verification development

A shallow embedding of the TinyG2 canonical machine layer
(`canonical_machine.h`).  The enumerations and state structures are
translated from the source header.  The repository ships only the header
(declarations, enums and structs); the implementation file
`canonical_machine.c` is not present, so operation bodies are modelled
from the specification document, each marked `Modelled from the spec:`.

Machine floats are modelled as rationals (`ℚ`); machine integers as `ℕ`.
-/

namespace CanonicalMachine

/-- AXES: compile-time axis count (X, Y, Z, A, B, C) from the source build. -/
abbrev AXES : Nat := 6

/-- An axis index. -/
abbrev Axis := Fin AXES

/-- COORDS: number of work coordinate systems (G54..G59); the offset table in
`cmSingleton_t` is `float offset[COORDS+1][AXES]`. -/
abbrev COORDS : Nat := 6

/-- Source enum `cmMachineState`. -/
inductive MachineState
  | initializing
  | ready
  | alarm
  | program_stop
  | program_end
  | cycle
deriving DecidableEq, Repr

/-- Source enum `cmCycleState`. -/
inductive CycleState
  | off
  | machining
  | probe
  | homing
  | jog
deriving DecidableEq, Repr

/-- Source enum `cmMotionState`. -/
inductive MotionState
  | stop
  | run
  | hold
deriving DecidableEq, Repr

/-- Source enum `cmFeedholdState` (feedhold sub-state machine). -/
inductive FeedholdState
  | off
  | sync
  | plan
  | decel
  | hold
  | end_hold
deriving DecidableEq, Repr

/-- Source enum `cmCombinedState` (the reporting projection's codomain). -/
inductive CombinedState
  | initializing
  | ready
  | alarm
  | program_stop
  | program_end
  | run
  | hold
  | probe
  | cycle
  | homing
  | jog
deriving DecidableEq, Repr

/-- Source enum `cmHomingState`. -/
inductive HomingState
  | not_homed
  | homed
deriving DecidableEq, Repr

/-- Source enum `cmMotionMode` (G modal group 1). -/
inductive MotionMode
  | straight_traverse
  | straight_feed
  | cw_arc
  | ccw_arc
  | cancel_motion_mode
  | straight_probe
  | canned_cycle_81
  | canned_cycle_82
  | canned_cycle_83
  | canned_cycle_84
  | canned_cycle_85
  | canned_cycle_86
  | canned_cycle_87
  | canned_cycle_88
  | canned_cycle_89
deriving DecidableEq, Repr

/-- Source enum `cmUnitsMode`: 0 = inches (G20), 1 = mm (G21). -/
inductive UnitsMode
  | inches
  | millimeters
  | degrees
deriving DecidableEq, Repr

/-- Source enum `cmDistanceMode`: G90 absolute, G91 incremental. -/
inductive DistanceMode
  | absolute_mode
  | incremental_mode
deriving DecidableEq, Repr

/-- Source enum `cmPathControlMode`. -/
inductive PathControlMode
  | exact_path
  | exact_stop
  | continuous
deriving DecidableEq, Repr

/-- Source enum `cmCanonicalPlane`. -/
inductive CanonicalPlane
  | xy
  | xz
  | yz
deriving DecidableEq, Repr

/-- Source enum `cmSpindleState`. -/
inductive SpindleState
  | off
  | cw
  | ccw
deriving DecidableEq, Repr

/-- Source enum `cmModalGroup` (used for detecting gcode errors, NIST §3.4). -/
inductive ModalGroup
  | group_g0
  | group_g1
  | group_g2
  | group_g3
  | group_g5
  | group_g6
  | group_g7
  | group_g8
  | group_g9
  | group_g12
  | group_g13
  | group_m4
  | group_m6
  | group_m7
  | group_m8
  | group_m9
deriving DecidableEq, Repr

/-- The G/M-code words a block may carry (those named by the source's modal
group table in `cmModalGroup` and `cmNextAction`). -/
inductive GWord
  | G0 | G1 | G2 | G3 | G80
  | G4
  | G10 | G28 | G28_1 | G30 | G92 | G92_1 | G92_2 | G92_3
  | G17 | G18 | G19
  | G20 | G21
  | G40 | G41 | G42
  | G43 | G49
  | G53
  | G54 | G55 | G56 | G57 | G58 | G59
  | G61 | G61_1 | G64
  | G90 | G91
  | G93 | G94
  | G98 | G99
  | M0 | M1 | M2 | M30 | M60
  | M3 | M4 | M5
  | M6
  | M7 | M8 | M9
  | M48 | M49
deriving DecidableEq, Repr, Fintype

/-- Modal group of each word, from the source `cmModalGroup` comments.
Per the source's Note 1, "Our G0 omits G4, G30, G53, G92.1, G92.2, G92.3 as
these have no axis components to error check": those words map to `none`. -/
def modalGroupOf : GWord → Option ModalGroup
  | .G10 | .G28 | .G28_1 | .G92 => some .group_g0
  | .G0 | .G1 | .G2 | .G3 | .G80 => some .group_g1
  | .G17 | .G18 | .G19 => some .group_g2
  | .G90 | .G91 => some .group_g3
  | .G93 | .G94 => some .group_g5
  | .G20 | .G21 => some .group_g6
  | .G40 | .G41 | .G42 => some .group_g7
  | .G43 | .G49 => some .group_g8
  | .G98 | .G99 => some .group_g9
  | .G54 | .G55 | .G56 | .G57 | .G58 | .G59 => some .group_g12
  | .G61 | .G61_1 | .G64 => some .group_g13
  | .M0 | .M1 | .M2 | .M30 | .M60 => some .group_m4
  | .M6 => some .group_m6
  | .M3 | .M4 | .M5 => some .group_m7
  | .M7 | .M8 | .M9 => some .group_m8
  | .M48 | .M49 => some .group_m9
  | .G4 | .G30 | .G53 | .G92_1 | .G92_2 | .G92_3 => none

/-- Status codes returned by `cm_*` functions (subset of the shared status
taxonomy referenced by the header's `stat_t`). -/
inductive Stat
  | ok
  | eagain
  | error_feed_rate_not_set
  | error_modal_group_violation
  | error_input_value_range
deriving DecidableEq, Repr

/-- Source struct `GCodeState_t`: the canonical model `gm`, copied by value
into planner buffers.  All values normalized (mm, mm/min, RPM). -/
structure GCodeState where
  linenum : Nat
  motion_mode : MotionMode
  target : Axis → ℚ
  work_offset : Axis → ℚ
  move_time : ℚ
  minimum_time : ℚ
  feed_rate : ℚ
  spindle_speed : ℚ
  parameter : ℚ
  inverse_feed_rate_mode : Bool
  select_plane : CanonicalPlane
  units_mode : UnitsMode
  coord_system : Nat
  absolute_override : Bool
  path_control : PathControlMode
  distance_mode : DistanceMode
  tool : Nat
  tool_select : Nat
  mist_coolant : Bool
  flood_coolant : Bool
  spindle_mode : SpindleState

/-- Source struct `GCodeStateExtended` (`gmx`): extensions owned only by the
canonical machine, never copied into planner buffers. -/
structure GCodeStateX where
  position : Axis → ℚ
  origin_offset : Axis → ℚ
  g28_position : Axis → ℚ
  g30_position : Axis → ℚ
  inverse_feed_rate : ℚ
  feed_rate_override_factor : ℚ
  traverse_override_factor : ℚ
  feed_rate_override_enable : Bool
  traverse_override_enable : Bool
  l_word : Nat
  plane_axis_0 : Axis
  plane_axis_1 : Axis
  plane_axis_2 : Axis
  origin_offset_enable : Bool
  block_delete_switch : Bool
  spindle_override_factor : ℚ
  spindle_override_enable : Bool
  arc_radius : ℚ
  arc_offset : Fin 3 → ℚ

/-- Source struct `cmSingleton_t` (`cm`): globals, config, offset table and
the live automaton state.  The offset table mirrors
`float offset[COORDS+1][AXES]` (absolute/G53 row plus G54..G59). -/
structure CmSingleton where
  junction_acceleration : ℚ
  chordal_tolerance : ℚ
  offset : Fin (COORDS + 1) → Axis → ℚ
  combined_state : CombinedState
  machine_state : MachineState
  cycle_state : CycleState
  motion_state : MotionState
  hold_state : FeedholdState
  homing_state : HomingState
  homed : Axis → Bool
  g28_flag : Bool
  g30_flag : Bool
  g10_persist_flag : Bool
  feedhold_requested : Bool
  queue_flush_requested : Bool
  cycle_start_requested : Bool

/-- The whole modelled machine: the singleton, the two model tiers and the
downstream planner queue of by-value `GCodeState` snapshots. -/
structure Machine where
  cm : CmSingleton
  gm : GCodeState
  gmx : GCodeStateX
  planner : List GCodeState

/-- Modelled from the spec: the combined-state projection table of §4.E
(the body of `cm_get_combined_state` is not under src/; the header carries
only its prototype and the `cmCombinedState` enum). -/
def cmCombinedStateOf (mach : MachineState) (cyc : CycleState)
    (mot : MotionState) (_hold : FeedholdState) : CombinedState :=
  match mach with
  | .initializing => .initializing
  | .alarm => .alarm
  | .ready => .ready
  | .program_stop => .program_stop
  | .program_end => .program_end
  | .cycle =>
    match cyc with
    | .homing => .homing
    | .probe => .probe
    | .jog => .jog
    | _ =>
      match mot with
      | .run => .run
      | .hold => .hold
      | .stop => .cycle

/-- Recompute the stored `combined_state` from the four component states.
Modelled from the spec: every public `cm_*` call maintains this on return
(invariant §3); state-changing operations end with this update. -/
def updateCombined (m : Machine) : Machine :=
  { m with cm := { m.cm with
      combined_state := cmCombinedStateOf m.cm.machine_state m.cm.cycle_state
        m.cm.motion_state m.cm.hold_state } }

/-- Apply a pure update to the canonical model `gm` only.  Every write the
canonical machine makes to `gm` goes through this helper; it touches neither
the planner queue nor any buffer already in it. -/
def withGm (f : GCodeState → GCodeState) (m : Machine) : Machine :=
  { m with gm := f m.gm }

/-- Apply a pure update to the extended model `gmx` only. -/
def withGmx (f : GCodeStateX → GCodeStateX) (m : Machine) : Machine :=
  { m with gmx := f m.gmx }

/-- Modelled from the spec: §4.A `normalize_length(value, units_mode)`; if
`units_mode = inches`, multiply by 25.4 (the body is not under src/). -/
def normalize_length (value : ℚ) (units : UnitsMode) : ℚ :=
  if units = .inches then value * (254 / 10) else value

/-- Read the `cm.offset` table at a machine-integer coord-system index.
The table has `COORDS + 1` rows (source: `float offset[COORDS+1][AXES]`). -/
def coordOffsetValue (cm : CmSingleton) (system : Nat) (axis : Axis) : ℚ :=
  if h : system < COORDS + 1 then cm.offset ⟨system, h⟩ axis else 0

/-- Modelled from the spec: §4.A `active_coord_offset(axis)` — the body of
`cm_get_active_coord_offset` is not under src/.  Returns 0 under absolute
override (G53); otherwise the selected coord-system offset plus the G92
origin offset when `origin_offset_enable` is set. -/
def cm_get_active_coord_offset (m : Machine) (axis : Axis) : ℚ :=
  if m.gm.absolute_override then 0
  else coordOffsetValue m.cm m.gm.coord_system axis +
    (if m.gmx.origin_offset_enable then m.gmx.origin_offset axis else 0)

/-- Modelled from the spec: `cm_set_work_offsets` snapshots the active
offsets into `gm.work_offset` (reporting copy carried into buffers). -/
def cm_set_work_offsets (m : Machine) : Machine :=
  withGm (fun g => { g with work_offset := fun a => cm_get_active_coord_offset m a }) m

/-- Per-axis canonical target value per the spec's §4.C distance-mode rule. -/
def modelTargetValue (m : Machine) (target : Axis → ℚ) (flag : Axis → Bool)
    (a : Axis) : ℚ :=
  if flag a then
    if m.gm.distance_mode = .incremental_mode ∧ m.gm.absolute_override = false then
      m.gmx.position a + target a
    else
      target a + cm_get_active_coord_offset m a
  else m.gmx.position a

/-- Modelled from the spec: §4.C distance-mode application — the body of
`cm_set_model_target` is not under src/.  Input values already in mm. -/
def cm_set_model_target (m : Machine) (target : Axis → ℚ) (flag : Axis → Bool) :
    Machine :=
  withGm (fun g => { g with target := modelTargetValue m target flag }) m

/-- Modelled from the spec: §4.E `cycle_start` transition —
ready | program_stop | program_end → cycle / machining; idempotent in cycle. -/
def cm_cycle_start (m : Machine) : Machine :=
  if m.cm.machine_state = .ready ∨ m.cm.machine_state = .program_stop ∨
      m.cm.machine_state = .program_end then
    updateCombined { m with cm := { m.cm with
      machine_state := .cycle, cycle_state := .machining } }
  else m

/-- Modelled from the spec: the runtime begins executing queued moves
(motion stop → run while in cycle with queued work). -/
def mp_exec_move_start (m : Machine) : Machine :=
  if m.cm.machine_state = .cycle ∧ m.cm.motion_state = .stop ∧
      ¬ m.planner.isEmpty then
    updateCombined { m with cm := { m.cm with motion_state := .run } }
  else m

/-- Modelled from the spec: §4.E `cycle_end` — fires when the planner is
empty and no hold is active; cycle → off, motion → stop, machine → program_stop. -/
def cm_cycle_end (m : Machine) : Machine :=
  if m.cm.machine_state = .cycle ∧ m.cm.hold_state = .off ∧ m.planner.isEmpty then
    updateCombined { m with cm := { m.cm with
      machine_state := .program_stop, cycle_state := .off, motion_state := .stop } }
  else m

/-- Modelled from the spec: `cm_feedhold` — only meaningful with motion = run;
starts the hold sub-sequence at `sync` and motion enters `hold`. -/
def cm_feedhold (m : Machine) : Machine :=
  if m.cm.motion_state = .run ∧ m.cm.hold_state = .off then
    updateCombined { m with cm := { m.cm with
      motion_state := .hold, hold_state := .sync } }
  else m

/-- Modelled from the spec: one runtime tick of the feedhold sub-state
machine: sync → plan → decel → hold, and end_hold → off with motion → run. -/
def cm_hold_exec_tick (m : Machine) : Machine :=
  match m.cm.hold_state with
  | .sync => updateCombined { m with cm := { m.cm with hold_state := .plan } }
  | .plan => updateCombined { m with cm := { m.cm with hold_state := .decel } }
  | .decel => updateCombined { m with cm := { m.cm with hold_state := .hold } }
  | .end_hold => updateCombined { m with cm := { m.cm with
      hold_state := .off, motion_state := .run } }
  | _ => m

/-- Modelled from the spec: `cm_request_feedhold` sets the request latch. -/
def cm_request_feedhold (m : Machine) : Machine :=
  { m with cm := { m.cm with feedhold_requested := true } }

/-- Modelled from the spec: `cm_request_queue_flush` sets the request latch. -/
def cm_request_queue_flush (m : Machine) : Machine :=
  { m with cm := { m.cm with queue_flush_requested := true } }

/-- Modelled from the spec: `cm_request_cycle_start` sets the request latch. -/
def cm_request_cycle_start (m : Machine) : Machine :=
  { m with cm := { m.cm with cycle_start_requested := true } }

/-- Modelled from the spec: §4.D `queue_flush` — drain the planner of pending
blocks, then resync `gm.target` to the model position. -/
def cm_queue_flush (m : Machine) : Machine :=
  withGm (fun g => { g with target := m.gmx.position }) { m with planner := [] }

/-- Modelled from the spec: §4.F priority 1 — if `feedhold_requested` and
motion = run, clear the flag and invoke `feedhold()`. -/
def seqFeedhold (m : Machine) : Machine :=
  if m.cm.feedhold_requested ∧ m.cm.motion_state = .run then
    cm_feedhold { m with cm := { m.cm with feedhold_requested := false } }
  else m

/-- Modelled from the spec: §4.F priority 2 — if `queue_flush_requested` and
hold ∈ {hold, end_hold}, clear the flag, drain the planner, resync target. -/
def seqQueueFlush (m : Machine) : Machine :=
  if m.cm.queue_flush_requested ∧
      (m.cm.hold_state = .hold ∨ m.cm.hold_state = .end_hold) then
    cm_queue_flush { m with cm := { m.cm with queue_flush_requested := false } }
  else m

/-- Modelled from the spec: §4.F priority 3 — if `cycle_start_requested`,
clear the flag; if currently holding, initiate end_hold, otherwise re-engage
the cycle when there is queued work. -/
def seqCycleStart (m : Machine) : Machine :=
  if m.cm.cycle_start_requested then
    let m3 := { m with cm := { m.cm with cycle_start_requested := false } }
    if m3.cm.hold_state = .hold then
      updateCombined { m3 with cm := { m3.cm with hold_state := .end_hold } }
    else if ¬ m3.planner.isEmpty then cm_cycle_start m3
    else m3
  else m

/-- Modelled from the spec: §4.F `cm_feedhold_sequencing_callback` — the
per-iteration dispatcher for the three request latches, in priority order. -/
def cm_feedhold_sequencing_callback (m : Machine) : Machine :=
  seqCycleStart (seqQueueFlush (seqFeedhold m))

/-- Modelled from the spec: §4.B `snapshot_into` — the planner buffer receives
a by-value copy of `gm` captured at enqueue time (`bf->gm = gm`). -/
def mp_enqueue (m : Machine) : Machine :=
  { m with planner := m.planner ++ [m.gm] }

/-- Modelled from the spec: the shared motion-command tail — set the motion
mode, compute the canonical target, enter the cycle, snapshot work offsets,
copy `gm` into a planner buffer, and advance `gmx.position` to the target. -/
def cm_enqueue_move (m : Machine) (mode : MotionMode) (target : Axis → ℚ)
    (flag : Axis → Bool) : Machine :=
  let m1 := withGm (fun g => { g with motion_mode := mode }) m
  let m2 := cm_set_model_target m1 target flag
  let m3 := cm_cycle_start m2
  let m4 := cm_set_work_offsets m3
  let m5 := mp_enqueue m4
  withGmx (fun x => { x with position := m5.gm.target }) m5

/-- Modelled from the spec: §4.D `straight_traverse` (G0). -/
def cm_straight_traverse (m : Machine) (target : Axis → ℚ) (flag : Axis → Bool) :
    Stat × Machine :=
  (.ok, cm_enqueue_move m .straight_traverse target flag)

/-- Modelled from the spec: §4.D `straight_feed` (G1) — fails with
`error_feed_rate_not_set` when `feed_rate = 0` and inverse-feed-rate mode is
off; otherwise enqueues a feed move. -/
def cm_straight_feed (m : Machine) (target : Axis → ℚ) (flag : Axis → Bool) :
    Stat × Machine :=
  if m.gm.feed_rate = 0 ∧ m.gm.inverse_feed_rate_mode = false then
    (.error_feed_rate_not_set, m)
  else
    (.ok, cm_enqueue_move m .straight_feed target flag)

/-- Modelled from the spec: `cm_set_units_mode` (G20/G21) writes the field. -/
def cm_set_units_mode (m : Machine) (mode : UnitsMode) : Machine :=
  withGm (fun g => { g with units_mode := mode }) m

/-- Modelled from the spec: `cm_set_distance_mode` (G90/G91) writes the field. -/
def cm_set_distance_mode (m : Machine) (mode : DistanceMode) : Machine :=
  withGm (fun g => { g with distance_mode := mode }) m

/-- Modelled from the spec: `cm_set_feed_rate` (F, already normalized to mm/min). -/
def cm_set_feed_rate (m : Machine) (f : ℚ) : Machine :=
  withGm (fun g => { g with feed_rate := f }) m

/-- Modelled from the spec: `cm_set_inverse_feed_rate_mode` (G93/G94). -/
def cm_set_inverse_feed_rate_mode (m : Machine) (mode : Bool) : Machine :=
  withGm (fun g => { g with inverse_feed_rate_mode := mode }) m

/-- Modelled from the spec: `cm_set_coord_system` (G54..G59) writes
`gm.coord_system`; indices 1..COORDS per the source `cmCoordSystem` enum
(`COORD_SYSTEM_MAX = G59`). -/
def cm_set_coord_system (m : Machine) (coord_system : Nat) : Stat × Machine :=
  if 1 ≤ coord_system ∧ coord_system ≤ COORDS then
    (.ok, withGm (fun g => { g with coord_system := coord_system }) m)
  else
    (.error_input_value_range, m)

/-- Modelled from the spec: §4.D `set_coord_offsets` (G10 L2) — for each
flagged axis write `offset_table[system][axis]` and set `g10_persist_flag`.
Valid work systems are 1..COORDS: the source `cmCoordSystem` enum ends at
`COORD_SYSTEM_MAX = G59` and the table has only `COORDS + 1` rows. -/
def cm_set_coord_offsets (m : Machine) (coord_system : Nat)
    (offset : Axis → ℚ) (flag : Axis → Bool) : Stat × Machine :=
  if h : 1 ≤ coord_system ∧ coord_system ≤ COORDS then
    let idx : Fin (COORDS + 1) := ⟨coord_system, Nat.lt_succ_of_le h.2⟩
    let row : Axis → ℚ := fun a => if flag a then offset a else m.cm.offset idx a
    (.ok, { m with cm := { m.cm with
      offset := Function.update m.cm.offset idx row,
      g10_persist_flag := true } })
  else
    (.error_input_value_range, m)

/-- Power-on default canonical model (modelled from the spec's initial state:
millimeters, absolute distance mode, G54, no feed rate set). -/
def gm0 : GCodeState where
  linenum := 0
  motion_mode := .cancel_motion_mode
  target := fun _ => 0
  work_offset := fun _ => 0
  move_time := 0
  minimum_time := 0
  feed_rate := 0
  spindle_speed := 0
  parameter := 0
  inverse_feed_rate_mode := false
  select_plane := .xy
  units_mode := .millimeters
  coord_system := 1
  absolute_override := false
  path_control := .continuous
  distance_mode := .absolute_mode
  tool := 0
  tool_select := 0
  mist_coolant := false
  flood_coolant := false
  spindle_mode := .off

/-- Power-on default extended model. -/
def gmx0 : GCodeStateX where
  position := fun _ => 0
  origin_offset := fun _ => 0
  g28_position := fun _ => 0
  g30_position := fun _ => 0
  inverse_feed_rate := 0
  feed_rate_override_factor := 1
  traverse_override_factor := 1
  feed_rate_override_enable := false
  traverse_override_enable := false
  l_word := 0
  plane_axis_0 := 0
  plane_axis_1 := 1
  plane_axis_2 := 2
  origin_offset_enable := false
  block_delete_switch := true
  spindle_override_factor := 1
  spindle_override_enable := false
  arc_radius := 0
  arc_offset := fun _ => 0

/-- Power-on singleton: machine READY after init, all offsets zero,
no requests latched. -/
def cm0 : CmSingleton where
  junction_acceleration := 0
  chordal_tolerance := 0
  offset := fun _ _ => 0
  combined_state := .ready
  machine_state := .ready
  cycle_state := .off
  motion_state := .stop
  hold_state := .off
  homing_state := .not_homed
  homed := fun _ => false
  g28_flag := false
  g30_flag := false
  g10_persist_flag := false
  feedhold_requested := false
  queue_flush_requested := false
  cycle_start_requested := false

/-- Modelled from the spec: `canonical_machine_init` — boot state after
init → (initializing → ready), empty planner. -/
def canonical_machine_init : Machine where
  cm := cm0
  gm := gm0
  gmx := gmx0
  planner := []

/-- Modelled from the spec: `cm_program_stop` (M0) — cycle-end behavior. -/
def cm_program_stop (m : Machine) : Machine :=
  updateCombined { m with cm := { m.cm with
    machine_state := .program_stop, cycle_state := .off, motion_state := .stop } }

/-- Modelled from the spec: `cm_program_end` (M2/M30) — cycle-end behavior
plus reset of `gm` to defaults and cancellation of origin offsets. -/
def cm_program_end (m : Machine) : Machine :=
  updateCombined { m with
    cm := { m.cm with
      machine_state := .program_end, cycle_state := .off, motion_state := .stop },
    gm := gm0,
    gmx := { m.gmx with origin_offset := fun _ => 0, origin_offset_enable := false } }

/-- Modelled from the spec: `cm_alarm` — from any state to machine = alarm. -/
def cm_alarm (m : Machine) : Machine :=
  updateCombined { m with cm := { m.cm with machine_state := .alarm } }

/-- One parsed input block: the `(gn, gf)` pair of the input tier.  `words`
carries the G/M codes present (the corresponding `gf` flags); the value
fields carry the raw `gn` data in the units the block was written in. -/
structure Block where
  words : List GWord
  target : Axis → ℚ
  target_flag : Axis → Bool
  feed_rate : ℚ
  feed_flag : Bool
  parameter : Nat
  l_word : Nat

/-- All sixteen modal groups of the source `cmModalGroup` enum. -/
def modalGroups : List ModalGroup :=
  [.group_g0, .group_g1, .group_g2, .group_g3, .group_g5, .group_g6,
   .group_g7, .group_g8, .group_g9, .group_g12, .group_g13,
   .group_m4, .group_m6, .group_m7, .group_m8, .group_m9]

/-- Number of words of a block that belong to a given modal group. -/
def countGroup (ws : List GWord) (g : ModalGroup) : Nat :=
  ws.countP (fun w => decide (modalGroupOf w = some g))

/-- Modelled from the spec: §4.C step 3 — a block violates the modal-group
rule when some modal group contributes two or more words.  (Group 0 and
group 1 are distinct groups, so one word of each never conflicts.) -/
def modalGroupViolation (ws : List GWord) : Bool :=
  modalGroups.any (fun g => decide (2 ≤ countGroup ws g))

/-- True when some axis word is present in the block. -/
def anyAxisFlag (flag : Axis → Bool) : Bool :=
  flag 0 || flag 1 || flag 2 || flag 3 || flag 4 || flag 5

/-- Coordinate system selected by a block's G54..G59 word, if any
(indices per the source `cmCoordSystem` enum). -/
def coordSelectOf (ws : List GWord) : Option Nat :=
  if ws.contains .G54 then some 1
  else if ws.contains .G55 then some 2
  else if ws.contains .G56 then some 3
  else if ws.contains .G57 then some 4
  else if ws.contains .G58 then some 5
  else if ws.contains .G59 then some 6
  else none

/-- Motion-mode word of a block, if any (G modal group 1). -/
def motionWordOf (ws : List GWord) : Option MotionMode :=
  if ws.contains .G0 then some .straight_traverse
  else if ws.contains .G1 then some .straight_feed
  else if ws.contains .G2 then some .cw_arc
  else if ws.contains .G3 then some .ccw_arc
  else if ws.contains .G80 then some .cancel_motion_mode
  else none

/-- Length-interpretation units for a block: this block's G20/G21 word if
present, else the modal `gm.units_mode` (spec §4.C step 1). -/
def blockUnits (m : Machine) (b : Block) : UnitsMode :=
  if b.words.contains .G20 then UnitsMode.inches
  else if b.words.contains .G21 then UnitsMode.millimeters
  else m.gm.units_mode

/-- Target words converted to mm (spec §4.C step 2): linear axes X/Y/Z are
normalized by the block's units; rotary axes pass through. -/
def blockTargetMm (m : Machine) (b : Block) : Axis → ℚ := fun a =>
  if a.val < 3 then normalize_length (b.target a) (blockUnits m b) else b.target a

/-- Modelled from the spec: §4.C step 4 — write the flagged modal fields of
the block into `gm`.  `absolute_override` (G53) is written from this block
alone, per the source comment "this block only". -/
def blockModalWrite (m : Machine) (b : Block) : Machine :=
  withGm (fun g => { g with
    units_mode := blockUnits m b,
    distance_mode :=
      if b.words.contains .G90 then .absolute_mode
      else if b.words.contains .G91 then .incremental_mode
      else g.distance_mode,
    coord_system := (coordSelectOf b.words).getD g.coord_system,
    absolute_override := b.words.contains .G53,
    inverse_feed_rate_mode :=
      if b.words.contains .G93 then true
      else if b.words.contains .G94 then false
      else g.inverse_feed_rate_mode }) m

/-- Modelled from the spec: the block's F word — inverse feed rate when G93
mode is active, else a normalized feed rate. -/
def blockFeedWrite (units : UnitsMode) (b : Block) (m : Machine) : Machine :=
  if b.feed_flag then
    if m.gm.inverse_feed_rate_mode then
      withGmx (fun x => { x with inverse_feed_rate := b.feed_rate }) m
    else
      cm_set_feed_rate m (normalize_length b.feed_rate units)
  else m

/-- Apply the block's explicit motion-mode word (G modal group 1), if any. -/
def blockMotionMode (b : Block) (m : Machine) : Machine :=
  match motionWordOf b.words with
  | some mo => withGm (fun g => { g with motion_mode := mo }) m
  | none => m

/-- Modelled from the spec: §4.C step 5 — dispatch on the non-modal and
motion words to the corresponding canonical command. -/
def blockDispatch (tmm : Axis → ℚ) (b : Block) (m : Machine) : Stat × Machine :=
  if b.words.contains .G10 then
    cm_set_coord_offsets m b.parameter tmm b.target_flag
  else if anyAxisFlag b.target_flag then
    match (blockMotionMode b m).gm.motion_mode with
    | .straight_traverse => cm_straight_traverse (blockMotionMode b m) tmm b.target_flag
    | .straight_feed => cm_straight_feed (blockMotionMode b m) tmm b.target_flag
    | _ => (.ok, blockMotionMode b m)
  else (.ok, blockMotionMode b m)

/-- Modelled from the spec: §4.C the block normalizer — the gcode dispatch
body is not under src/.  In order: apply this block's G20/G21 to the length
interpretation, convert linear words to mm, reject modal-group conflicts
without touching `gm`, write the flagged modal fields, then dispatch. -/
def gcNormalizeBlock (m : Machine) (b : Block) : Stat × Machine :=
  if modalGroupViolation b.words then
    (.error_modal_group_violation, m)
  else
    blockDispatch (blockTargetMm m b) b
      (blockFeedWrite (blockUnits m b) b (blockModalWrite m b))

/-- The modelled public `cm_*` surface, as one operation type: a program is
a list of these calls. -/
inductive CmOp
  | cycle_start
  | cycle_end
  | exec_move_start
  | feedhold
  | hold_exec_tick
  | request_feedhold
  | request_queue_flush
  | request_cycle_start
  | feedhold_sequencing_callback
  | queue_flush
  | program_stop
  | program_end
  | alarm_raise
  | set_units_mode (u : UnitsMode)
  | set_distance_mode (d : DistanceMode)
  | set_feed_rate (f : ℚ)
  | set_inverse_feed_rate_mode (b : Bool)
  | set_coord_system (n : Nat)
  | set_coord_offsets (n : Nat) (offset : Axis → ℚ) (flag : Axis → Bool)
  | straight_traverse (t : Axis → ℚ) (flag : Axis → Bool)
  | straight_feed (t : Axis → ℚ) (flag : Axis → Bool)
  | normalize_block (b : Block)

/-- Execute one public call (status codes discarded for the automaton view). -/
def step (m : Machine) : CmOp → Machine
  | .cycle_start => cm_cycle_start m
  | .cycle_end => cm_cycle_end m
  | .exec_move_start => mp_exec_move_start m
  | .feedhold => cm_feedhold m
  | .hold_exec_tick => cm_hold_exec_tick m
  | .request_feedhold => cm_request_feedhold m
  | .request_queue_flush => cm_request_queue_flush m
  | .request_cycle_start => cm_request_cycle_start m
  | .feedhold_sequencing_callback => cm_feedhold_sequencing_callback m
  | .queue_flush => cm_queue_flush m
  | .program_stop => cm_program_stop m
  | .program_end => cm_program_end m
  | .alarm_raise => cm_alarm m
  | .set_units_mode u => cm_set_units_mode m u
  | .set_distance_mode d => cm_set_distance_mode m d
  | .set_feed_rate f => cm_set_feed_rate m f
  | .set_inverse_feed_rate_mode b => cm_set_inverse_feed_rate_mode m b
  | .set_coord_system n => (cm_set_coord_system m n).2
  | .set_coord_offsets n offset flag => (cm_set_coord_offsets m n offset flag).2
  | .straight_traverse t flag => (cm_straight_traverse m t flag).2
  | .straight_feed t flag => (cm_straight_feed m t flag).2
  | .normalize_block b => (gcNormalizeBlock m b).2

/-- Run a sequence of public calls. -/
def run (m : Machine) (ops : List CmOp) : Machine :=
  ops.foldl step m

/-- The §3 invariant: the stored `combined_state` equals the §4.E projection
of the four component states. -/
def CombinedInv (m : Machine) : Prop :=
  m.cm.combined_state =
    cmCombinedStateOf m.cm.machine_state m.cm.cycle_state
      m.cm.motion_state m.cm.hold_state

theorem combinedInv_updateCombined (m : Machine) :
    CombinedInv (updateCombined m) := rfl

theorem combinedInv_withGm (f : GCodeState → GCodeState) (m : Machine)
    (h : CombinedInv m) : CombinedInv (withGm f m) := h

theorem combinedInv_withGmx (f : GCodeStateX → GCodeStateX) (m : Machine)
    (h : CombinedInv m) : CombinedInv (withGmx f m) := h

theorem combinedInv_mp_enqueue (m : Machine) (h : CombinedInv m) :
    CombinedInv (mp_enqueue m) := h

theorem combinedInv_queue_flush (m : Machine) (h : CombinedInv m) :
    CombinedInv (cm_queue_flush m) := h

theorem combinedInv_set_work_offsets (m : Machine) (h : CombinedInv m) :
    CombinedInv (cm_set_work_offsets m) := h

theorem combinedInv_set_model_target (m : Machine) (t : Axis → ℚ)
    (fl : Axis → Bool) (h : CombinedInv m) :
    CombinedInv (cm_set_model_target m t fl) := h

theorem combinedInv_cycle_start (m : Machine) (h : CombinedInv m) :
    CombinedInv (cm_cycle_start m) := by
  unfold cm_cycle_start
  split
  · exact combinedInv_updateCombined _
  · exact h

theorem combinedInv_exec_move_start (m : Machine) (h : CombinedInv m) :
    CombinedInv (mp_exec_move_start m) := by
  unfold mp_exec_move_start
  split
  · exact combinedInv_updateCombined _
  · exact h

theorem combinedInv_cycle_end (m : Machine) (h : CombinedInv m) :
    CombinedInv (cm_cycle_end m) := by
  unfold cm_cycle_end
  split
  · exact combinedInv_updateCombined _
  · exact h

theorem combinedInv_feedhold (m : Machine) (h : CombinedInv m) :
    CombinedInv (cm_feedhold m) := by
  unfold cm_feedhold
  split
  · exact combinedInv_updateCombined _
  · exact h

theorem combinedInv_hold_exec_tick (m : Machine) (h : CombinedInv m) :
    CombinedInv (cm_hold_exec_tick m) := by
  unfold cm_hold_exec_tick
  split <;> first
    | exact combinedInv_updateCombined _
    | exact h

theorem combinedInv_program_stop (m : Machine) :
    CombinedInv (cm_program_stop m) := combinedInv_updateCombined _

theorem combinedInv_program_end (m : Machine) :
    CombinedInv (cm_program_end m) := combinedInv_updateCombined _

theorem combinedInv_alarm (m : Machine) :
    CombinedInv (cm_alarm m) := combinedInv_updateCombined _

theorem combinedInv_set_coord_system (m : Machine) (n : Nat)
    (h : CombinedInv m) : CombinedInv (cm_set_coord_system m n).2 := by
  unfold cm_set_coord_system
  split <;> exact h

theorem combinedInv_set_coord_offsets (m : Machine) (n : Nat)
    (offset : Axis → ℚ) (fl : Axis → Bool) (h : CombinedInv m) :
    CombinedInv (cm_set_coord_offsets m n offset fl).2 := by
  unfold cm_set_coord_offsets
  split <;> exact h

theorem combinedInv_enqueue_move (m : Machine) (mode : MotionMode)
    (t : Axis → ℚ) (fl : Axis → Bool) (h : CombinedInv m) :
    CombinedInv (cm_enqueue_move m mode t fl) :=
  combinedInv_withGmx _ _ (combinedInv_mp_enqueue _
    (combinedInv_set_work_offsets _ (combinedInv_cycle_start _
      (combinedInv_set_model_target _ _ _ (combinedInv_withGm _ _ h)))))

theorem combinedInv_straight_traverse (m : Machine) (t : Axis → ℚ)
    (fl : Axis → Bool) (h : CombinedInv m) :
    CombinedInv (cm_straight_traverse m t fl).2 :=
  combinedInv_enqueue_move _ _ _ _ h

theorem combinedInv_straight_feed (m : Machine) (t : Axis → ℚ)
    (fl : Axis → Bool) (h : CombinedInv m) :
    CombinedInv (cm_straight_feed m t fl).2 := by
  unfold cm_straight_feed
  split
  · exact h
  · exact combinedInv_enqueue_move _ _ _ _ h

theorem combinedInv_seqFeedhold (m : Machine) (h : CombinedInv m) :
    CombinedInv (seqFeedhold m) := by
  unfold seqFeedhold
  split
  · exact combinedInv_feedhold _ h
  · exact h

theorem combinedInv_seqQueueFlush (m : Machine) (h : CombinedInv m) :
    CombinedInv (seqQueueFlush m) := by
  unfold seqQueueFlush
  split
  · exact combinedInv_queue_flush _ h
  · exact h

theorem combinedInv_seqCycleStart (m : Machine) (h : CombinedInv m) :
    CombinedInv (seqCycleStart m) := by
  unfold seqCycleStart
  split
  · dsimp only
    split
    · exact combinedInv_updateCombined _
    · split
      · exact combinedInv_cycle_start _ h
      · exact h
  · exact h

theorem combinedInv_callback (m : Machine) (h : CombinedInv m) :
    CombinedInv (cm_feedhold_sequencing_callback m) :=
  combinedInv_seqCycleStart _ (combinedInv_seqQueueFlush _
    (combinedInv_seqFeedhold _ h))

theorem combinedInv_blockModalWrite (m : Machine) (b : Block)
    (h : CombinedInv m) : CombinedInv (blockModalWrite m b) := h

theorem combinedInv_blockFeedWrite (units : UnitsMode) (b : Block)
    (m : Machine) (h : CombinedInv m) :
    CombinedInv (blockFeedWrite units b m) := by
  unfold blockFeedWrite
  split
  · split
    · exact combinedInv_withGmx _ _ h
    · exact h
  · exact h

theorem combinedInv_blockMotionMode (b : Block) (m : Machine)
    (h : CombinedInv m) : CombinedInv (blockMotionMode b m) := by
  unfold blockMotionMode
  split <;> exact h

theorem combinedInv_blockDispatch (tmm : Axis → ℚ) (b : Block) (m : Machine)
    (h : CombinedInv m) : CombinedInv (blockDispatch tmm b m).2 := by
  unfold blockDispatch
  split
  · exact combinedInv_set_coord_offsets _ _ _ _ h
  · split
    · split
      · exact combinedInv_straight_traverse _ _ _ (combinedInv_blockMotionMode _ _ h)
      · exact combinedInv_straight_feed _ _ _ (combinedInv_blockMotionMode _ _ h)
      · exact combinedInv_blockMotionMode _ _ h
    · exact combinedInv_blockMotionMode _ _ h

theorem combinedInv_normalize_block (m : Machine) (b : Block)
    (h : CombinedInv m) : CombinedInv (gcNormalizeBlock m b).2 := by
  unfold gcNormalizeBlock
  split
  · exact h
  · exact combinedInv_blockDispatch _ _ _
      (combinedInv_blockFeedWrite _ _ _ (combinedInv_blockModalWrite _ _ h))

theorem combinedInv_step (m : Machine) (op : CmOp) (h : CombinedInv m) :
    CombinedInv (step m op) := by
  cases op with
  | cycle_start => exact combinedInv_cycle_start _ h
  | cycle_end => exact combinedInv_cycle_end _ h
  | exec_move_start => exact combinedInv_exec_move_start _ h
  | feedhold => exact combinedInv_feedhold _ h
  | hold_exec_tick => exact combinedInv_hold_exec_tick _ h
  | request_feedhold => exact h
  | request_queue_flush => exact h
  | request_cycle_start => exact h
  | feedhold_sequencing_callback => exact combinedInv_callback _ h
  | queue_flush => exact combinedInv_queue_flush _ h
  | program_stop => exact combinedInv_program_stop _
  | program_end => exact combinedInv_program_end _
  | alarm_raise => exact combinedInv_alarm _
  | set_units_mode u => exact h
  | set_distance_mode d => exact h
  | set_feed_rate f => exact h
  | set_inverse_feed_rate_mode bv => exact h
  | set_coord_system n => exact combinedInv_set_coord_system _ _ h
  | set_coord_offsets n offset fl => exact combinedInv_set_coord_offsets _ _ _ _ h
  | straight_traverse t fl => exact combinedInv_straight_traverse _ _ _ h
  | straight_feed t fl => exact combinedInv_straight_feed _ _ _ h
  | normalize_block b => exact combinedInv_normalize_block _ _ h

theorem combinedInv_run (ops : List CmOp) (m : Machine) (h : CombinedInv m) :
    CombinedInv (run m ops) := by
  induction ops generalizing m with
  | nil => exact h
  | cons op rest ih => exact ih _ (combinedInv_step _ _ h)

theorem combinedInv_init : CombinedInv canonical_machine_init := rfl

theorem planner_cycle_start (m : Machine) :
    (cm_cycle_start m).planner = m.planner := by
  unfold cm_cycle_start
  split <;> rfl

theorem planner_feedhold (m : Machine) :
    (cm_feedhold m).planner = m.planner := by
  unfold cm_feedhold
  split <;> rfl

theorem planner_hold_exec_tick (m : Machine) :
    (cm_hold_exec_tick m).planner = m.planner := by
  unfold cm_hold_exec_tick
  split <;> rfl

theorem planner_set_coord_system (m : Machine) (n : Nat) :
    (cm_set_coord_system m n).2.planner = m.planner := by
  unfold cm_set_coord_system
  split <;> rfl

theorem planner_set_coord_offsets (m : Machine) (n : Nat) (offset : Axis → ℚ)
    (fl : Axis → Bool) : (cm_set_coord_offsets m n offset fl).2.planner = m.planner := by
  unfold cm_set_coord_offsets
  split <;> rfl

theorem planner_take_enqueue_move (m : Machine) (mode : MotionMode)
    (t : Axis → ℚ) (fl : Axis → Bool) :
    (cm_enqueue_move m mode t fl).planner.take m.planner.length = m.planner := by
  have h : (cm_enqueue_move m mode t fl).planner =
      (cm_cycle_start (cm_set_model_target
        (withGm (fun g => { g with motion_mode := mode }) m) t fl)).planner ++
      [(cm_set_work_offsets (cm_cycle_start (cm_set_model_target
        (withGm (fun g => { g with motion_mode := mode }) m) t fl))).gm] := rfl
  rw [h, planner_cycle_start]
  exact List.take_left _ _

theorem planner_take_straight_traverse (m : Machine) (t : Axis → ℚ)
    (fl : Axis → Bool) :
    (cm_straight_traverse m t fl).2.planner.take m.planner.length = m.planner :=
  planner_take_enqueue_move m .straight_traverse t fl

theorem planner_take_straight_feed (m : Machine) (t : Axis → ℚ)
    (fl : Axis → Bool) :
    (cm_straight_feed m t fl).2.planner.take m.planner.length = m.planner := by
  unfold cm_straight_feed
  split
  · simp
  · exact planner_take_enqueue_move m .straight_feed t fl

theorem planner_seqFeedhold (m : Machine) :
    (seqFeedhold m).planner = m.planner := by
  unfold seqFeedhold
  split
  · exact planner_feedhold _
  · rfl

theorem planner_seqCycleStart (m : Machine) :
    (seqCycleStart m).planner = m.planner := by
  unfold seqCycleStart
  split
  · dsimp only
    split
    · rfl
    · split
      · exact planner_cycle_start _
      · rfl
  · rfl

theorem planner_seqQueueFlush_cases (m : Machine) :
    (seqQueueFlush m).planner = m.planner ∨ (seqQueueFlush m).planner = [] := by
  unfold seqQueueFlush
  split
  · exact Or.inr rfl
  · exact Or.inl rfl

theorem planner_take_callback (m : Machine) :
    (cm_feedhold_sequencing_callback m).planner.take m.planner.length = m.planner ∨
      (cm_feedhold_sequencing_callback m).planner = [] := by
  unfold cm_feedhold_sequencing_callback
  rw [planner_seqCycleStart]
  rcases planner_seqQueueFlush_cases (seqFeedhold m) with h | h
  · left
    rw [h, planner_seqFeedhold]
    simp
  · right
    exact h

theorem planner_blockMotionMode (b : Block) (m : Machine) :
    (blockMotionMode b m).planner = m.planner := by
  unfold blockMotionMode
  split <;> rfl

theorem planner_take_blockDispatch (tmm : Axis → ℚ) (b : Block) (m : Machine) :
    (blockDispatch tmm b m).2.planner.take m.planner.length = m.planner := by
  unfold blockDispatch
  split
  · rw [planner_set_coord_offsets]
    simp
  · split
    · split
      · rw [show m.planner = (blockMotionMode b m).planner from (planner_blockMotionMode b m).symm]
        exact planner_take_straight_traverse _ _ _
      · rw [show m.planner = (blockMotionMode b m).planner from (planner_blockMotionMode b m).symm]
        exact planner_take_straight_feed _ _ _
      · rw [planner_blockMotionMode]
        simp
    · rw [planner_blockMotionMode]
      simp

theorem planner_blockFeedWrite (units : UnitsMode) (b : Block) (m : Machine) :
    (blockFeedWrite units b m).planner = m.planner := by
  unfold blockFeedWrite
  split
  · split <;> rfl
  · rfl

theorem planner_take_normalize_block (m : Machine) (b : Block) :
    (gcNormalizeBlock m b).2.planner.take m.planner.length = m.planner := by
  unfold gcNormalizeBlock
  split
  · simp
  · have h := planner_take_blockDispatch (blockTargetMm m b) b
      (blockFeedWrite (blockUnits m b) b (blockModalWrite m b))
    rw [planner_blockFeedWrite] at h
    exact h

/-- Claim C1: after every sequence of public `cm_*` calls starting from init,
the stored `cm.combined_state` equals the §4.E projection of
`(machine_state, cycle_state, motion_state, hold_state)`: machine states
INITIALIZING, ALARM, READY, PROGRAM_STOP and PROGRAM_END project directly;
in a cycle, the homing/probe/jog cycle states project to HOMING/PROBE/JOG,
and otherwise motion run/hold/stop projects to RUN/HOLD/CYCLE, which is
exactly the defining table of `cmCombinedStateOf`. -/
theorem combined_state_is_projection_after_every_call (ops : List CmOp) :
    (run canonical_machine_init ops).cm.combined_state =
      cmCombinedStateOf (run canonical_machine_init ops).cm.machine_state
        (run canonical_machine_init ops).cm.cycle_state
        (run canonical_machine_init ops).cm.motion_state
        (run canonical_machine_init ops).cm.hold_state :=
  combinedInv_run ops _ combinedInv_init

/-- Claim C2: every planner enqueue stores a by-value copy of `gm` captured
at enqueue time; the canonical machine's writes to `gm` (all of which go
through `withGm`) leave the planner queue untouched; and no public call
rewrites a buffer already in the queue — each call either preserves the
queued prefix verbatim (possibly appending) or, for a queue flush, drops
pending buffers entirely without writing through any of them. -/
theorem planner_snapshot_independence :
    (∀ m : Machine, (mp_enqueue m).planner = m.planner ++ [m.gm]) ∧
    (∀ (f : GCodeState → GCodeState) (m : Machine),
      (withGm f m).planner = m.planner) ∧
    (∀ (m : Machine) (op : CmOp),
      (step m op).planner.take m.planner.length = m.planner ∨
        (step m op).planner = []) := by
  refine ⟨fun m => rfl, fun f m => rfl, fun m op => ?_⟩
  cases op with
  | cycle_start => rw [step, planner_cycle_start]; left; simp
  | cycle_end =>
    left
    have h : (cm_cycle_end m).planner = m.planner := by
      unfold cm_cycle_end; split <;> rfl
    rw [step, h]
    simp
  | exec_move_start =>
    left
    have h : (mp_exec_move_start m).planner = m.planner := by
      unfold mp_exec_move_start; split <;> rfl
    rw [step, h]
    simp
  | feedhold => rw [step, planner_feedhold]; left; simp
  | hold_exec_tick => rw [step, planner_hold_exec_tick]; left; simp
  | request_feedhold => left; simp [step, cm_request_feedhold]
  | request_queue_flush => left; simp [step, cm_request_queue_flush]
  | request_cycle_start => left; simp [step, cm_request_cycle_start]
  | feedhold_sequencing_callback => exact planner_take_callback m
  | queue_flush => right; rfl
  | program_stop => left; simp [step, cm_program_stop, updateCombined]
  | program_end => left; simp [step, cm_program_end, updateCombined]
  | alarm_raise => left; simp [step, cm_alarm, updateCombined]
  | set_units_mode u => left; simp [step, cm_set_units_mode, withGm]
  | set_distance_mode d => left; simp [step, cm_set_distance_mode, withGm]
  | set_feed_rate f => left; simp [step, cm_set_feed_rate, withGm]
  | set_inverse_feed_rate_mode bv =>
    left; simp [step, cm_set_inverse_feed_rate_mode, withGm]
  | set_coord_system n => rw [step, planner_set_coord_system]; left; simp
  | set_coord_offsets n offset fl =>
    rw [step, planner_set_coord_offsets]; left; simp
  | straight_traverse t fl => left; exact planner_take_straight_traverse m t fl
  | straight_feed t fl => left; exact planner_take_straight_feed m t fl
  | normalize_block b => left; exact planner_take_normalize_block m b

/-- Claim C7: per-axis canonical target computation: a flagged axis gets
`gmx.position + gn.target` in incremental mode without absolute override,
and `gn.target + active_coord_offset` otherwise; an unflagged axis inherits
`gmx.position`. -/
theorem model_target_distance_mode_application (m : Machine) (t : Axis → ℚ)
    (fl : Axis → Bool) (a : Axis) :
    (cm_set_model_target m t fl).gm.target a =
      if fl a then
        if m.gm.distance_mode = .incremental_mode ∧
            m.gm.absolute_override = false then
          m.gmx.position a + t a
        else
          t a + cm_get_active_coord_offset m a
      else m.gmx.position a := rfl

/-- Claim C5: `cm_straight_feed` fails with `error_feed_rate_not_set` and
leaves `gm.target` unchanged when `feed_rate = 0` and inverse-feed-rate mode
is off; otherwise that error is not returned and a feed move (a buffer whose
motion mode is straight_feed) is enqueued. -/
theorem straight_feed_requires_feed_rate (m : Machine) (t : Axis → ℚ)
    (fl : Axis → Bool) :
    (m.gm.feed_rate = 0 ∧ m.gm.inverse_feed_rate_mode = false →
      (cm_straight_feed m t fl).1 = .error_feed_rate_not_set ∧
      (cm_straight_feed m t fl).2.gm.target = m.gm.target) ∧
    (m.gm.feed_rate ≠ 0 ∨ m.gm.inverse_feed_rate_mode = true →
      (cm_straight_feed m t fl).1 ≠ .error_feed_rate_not_set ∧
      ∃ buf : GCodeState, buf.motion_mode = .straight_feed ∧
        (cm_straight_feed m t fl).2.planner = m.planner ++ [buf]) := by
  constructor
  · intro h
    unfold cm_straight_feed
    rw [if_pos h]
    exact ⟨rfl, rfl⟩
  · intro h
    have hcond : ¬ (m.gm.feed_rate = 0 ∧ m.gm.inverse_feed_rate_mode = false) := by
      rcases h with h | h
      · exact fun hc => h hc.1
      · exact fun hc => by rw [h] at hc; exact absurd hc.2 (by decide)
    unfold cm_straight_feed
    rw [if_neg hcond]
    refine ⟨by simp, ?_⟩
    refine ⟨(cm_set_work_offsets (cm_cycle_start (cm_set_model_target
      (withGm (fun g => { g with motion_mode := .straight_feed }) m) t fl))).gm,
      ?_, ?_⟩
    · have hmm : ∀ m' : Machine, (cm_cycle_start m').gm = m'.gm := by
        intro m'
        unfold cm_cycle_start
        split <;> rfl
      show ((cm_cycle_start _).gm).motion_mode = _
      rw [hmm]
      rfl
    · show (cm_enqueue_move m .straight_feed t fl).planner = _
      have h2 : (cm_enqueue_move m .straight_feed t fl).planner =
          (cm_cycle_start (cm_set_model_target
            (withGm (fun g => { g with motion_mode := .straight_feed }) m) t fl)).planner ++
          [(cm_set_work_offsets (cm_cycle_start (cm_set_model_target
            (withGm (fun g => { g with motion_mode := .straight_feed }) m) t fl))).gm] := rfl
      rw [h2, planner_cycle_start]
      rfl

/-- A machine in the initial state but with a feed rate programmed. -/
def mFeed : Machine :=
  { canonical_machine_init with gm := { gm0 with feed_rate := 600 } }

/-- Witness for claim C5 at concrete inputs: with the power-on state
(F = 0, G94) a G1 is rejected; with F600 programmed it is not. -/
theorem straight_feed_requires_feed_rate_witness :
    (cm_straight_feed canonical_machine_init (fun _ => 100) (fun _ => true)).1 =
      .error_feed_rate_not_set ∧
    (cm_straight_feed mFeed (fun _ => 100) (fun _ => true)).1 ≠
      .error_feed_rate_not_set :=
  ⟨((straight_feed_requires_feed_rate canonical_machine_init _ _).1
      ⟨rfl, rfl⟩).1,
   ((straight_feed_requires_feed_rate mFeed _ _).2
      (Or.inl (by norm_num [mFeed, gm0]))).1⟩

/-- Claim C6: the active coordinate offset is 0 under absolute override;
otherwise it is the selected coord-system offset plus the G92 origin offset
when enabled (just the coord-system offset when disabled).  G53 is
block-scoped: the normalizer writes `absolute_override` from each block's
own words, so a block carrying G53 sees offset 0 and the next block without
G53 (and without a coord-select word) sees the previous offset again. -/
theorem active_coord_offset_semantics :
    (∀ (m : Machine) (a : Axis), m.gm.absolute_override = true →
      cm_get_active_coord_offset m a = 0) ∧
    (∀ (m : Machine) (a : Axis), m.gm.absolute_override = false →
      cm_get_active_coord_offset m a =
        coordOffsetValue m.cm m.gm.coord_system a +
          (if m.gmx.origin_offset_enable then m.gmx.origin_offset a else 0)) ∧
    (∀ (m : Machine) (b : Block) (a : Axis), b.words.contains .G53 = true →
      cm_get_active_coord_offset (blockModalWrite m b) a = 0) ∧
    (∀ (m : Machine) (b : Block) (a : Axis), b.words.contains .G53 = false →
      coordSelectOf b.words = none →
      cm_get_active_coord_offset (blockModalWrite m b) a =
        coordOffsetValue m.cm m.gm.coord_system a +
          (if m.gmx.origin_offset_enable then m.gmx.origin_offset a else 0)) := by
  refine ⟨?_, ?_, ?_, ?_⟩
  · intro m a h
    simp [cm_get_active_coord_offset, h]
  · intro m a h
    simp [cm_get_active_coord_offset, h]
  · intro m b a h
    have h' : GWord.G53 ∈ b.words := by simpa using h
    simp [cm_get_active_coord_offset, blockModalWrite, withGm, h']
  · intro m b a h hsel
    have h' : GWord.G53 ∉ b.words := by simpa using h
    simp [cm_get_active_coord_offset, blockModalWrite, withGm, h', hsel]

/-- A machine with a nonzero G54 work offset programmed (row 1 = 4 mm). -/
def mOffs : Machine :=
  { canonical_machine_init with
    cm := { cm0 with offset := Function.update (fun _ => fun _ => 0) 1 (fun _ => 4) } }

/-- `mOffs` with absolute override (G53) active in the current model. -/
def mOv : Machine :=
  { mOffs with gm := { gm0 with absolute_override := true } }

/-- A block carrying only a G53 word. -/
def blkG53 : Block where
  words := [.G53]
  target := fun _ => 0
  target_flag := fun _ => false
  feed_rate := 0
  feed_flag := false
  parameter := 0
  l_word := 0

/-- An empty block (no words, no axis data). -/
def blkPlain : Block where
  words := []
  target := fun _ => 0
  target_flag := fun _ => false
  feed_rate := 0
  feed_flag := false
  parameter := 0
  l_word := 0

/-- Witness for claim C6 at concrete inputs: with a 4 mm G54 offset, the
override-active model reads offset 0; the plain model reads the table value;
a G53 block reads 0; and a following plain block (processed after the
override was active) reads the table value again. -/
theorem active_coord_offset_semantics_witness :
    cm_get_active_coord_offset mOv 0 = 0 ∧
    cm_get_active_coord_offset mOffs 0 =
      coordOffsetValue mOffs.cm mOffs.gm.coord_system 0 +
        (if mOffs.gmx.origin_offset_enable then mOffs.gmx.origin_offset 0 else 0) ∧
    cm_get_active_coord_offset (blockModalWrite mOffs blkG53) 0 = 0 ∧
    cm_get_active_coord_offset (blockModalWrite mOv blkPlain) 0 =
      coordOffsetValue mOv.cm mOv.gm.coord_system 0 +
        (if mOv.gmx.origin_offset_enable then mOv.gmx.origin_offset 0 else 0) :=
  ⟨active_coord_offset_semantics.1 mOv 0 rfl,
   active_coord_offset_semantics.2.1 mOffs 0 rfl,
   active_coord_offset_semantics.2.2.1 mOffs blkG53 0 (by decide),
   active_coord_offset_semantics.2.2.2 mOv blkPlain 0 (by decide) (by decide)⟩

/-- Claim C4: a block containing more than one word of the same modal group
is rejected by the normalizer with `error_modal_group_violation` and the
machine — `gm` included — is returned entirely unchanged; a group-0
(non-modal) word co-existing with a group-1 (motion) word is not a
violation, the two being distinct modal groups. -/
theorem modal_group_violation_rejects_block :
    (∀ (m : Machine) (b : Block), modalGroupViolation b.words = true →
      gcNormalizeBlock m b = (.error_modal_group_violation, m)) ∧
    (∀ w0 w1 : GWord, modalGroupOf w0 = some .group_g0 →
      modalGroupOf w1 = some .group_g1 →
      modalGroupViolation [w0, w1] = false) := by
  constructor
  · intro m b h
    unfold gcNormalizeBlock
    rw [if_pos h]
  · decide

/-- The spec's S6-style conflicting block `G0 G1 X1`: two motion words. -/
def blkG0G1X1 : Block where
  words := [.G0, .G1]
  target := fun a => if a = 0 then 1 else 0
  target_flag := fun a => decide (a = 0)
  feed_rate := 0
  feed_flag := false
  parameter := 0
  l_word := 0

/-- Witness for claim C4 at the spec's concrete example: `G0 G1 X1` is a
modal-group violation and leaves the machine unchanged, while one group-0
word next to one group-1 word (G10 with G0) is accepted. -/
theorem modal_group_violation_rejects_block_witness :
    gcNormalizeBlock canonical_machine_init blkG0G1X1 =
      (.error_modal_group_violation, canonical_machine_init) ∧
    modalGroupViolation [.G10, .G0] = false :=
  ⟨modal_group_violation_rejects_block.1 canonical_machine_init blkG0G1X1
      (by decide),
   modal_group_violation_rejects_block.2 .G10 .G0 rfl rfl⟩

/-- Claim C10: the group-0 conflict check covers exactly G10, G28, G28.1 and
G92; the non-modal codes G4, G30, G53, G92.1, G92.2 and G92.3 belong to no
modal group (the source's Note 1: no axis components to error-check), so
adding one of them to any block never creates a modal-group violation. -/
theorem group_zero_omits_axisless_nonmodals :
    (∀ w : GWord, modalGroupOf w = some .group_g0 ↔
      (w = .G10 ∨ w = .G28 ∨ w = .G28_1 ∨ w = .G92)) ∧
    (∀ w : GWord,
      (w = .G4 ∨ w = .G30 ∨ w = .G53 ∨ w = .G92_1 ∨ w = .G92_2 ∨ w = .G92_3) →
      modalGroupOf w = none) ∧
    (∀ (w : GWord) (ws : List GWord), modalGroupOf w = none →
      modalGroupViolation (w :: ws) = modalGroupViolation ws) := by
  refine ⟨by decide, by decide, ?_⟩
  intro w ws h
  unfold modalGroupViolation countGroup
  simp [List.countP_cons, h]

/-- Witness for claim C10 at a concrete input: G4 has no modal group, so a
block pairing G4 with the group-0 word G10 reports no violation. -/
theorem group_zero_omits_axisless_nonmodals_witness :
    modalGroupOf .G4 = none ∧
    modalGroupViolation [.G4, .G10] = modalGroupViolation [.G10] ∧
    modalGroupViolation [.G4, .G10] = false :=
  ⟨group_zero_omits_axisless_nonmodals.2.1 .G4 (Or.inl rfl),
   group_zero_omits_axisless_nonmodals.2.2 .G4 [.G10]
     (group_zero_omits_axisless_nonmodals.2.1 .G4 (Or.inl rfl)),
   by decide⟩

/-- Counterexample to claim C3 as stated: the claim's coordinate-system
indices "1 through 9" fail at index 7 — the source `cmCoordSystem` enum ends
at `COORD_SYSTEM_MAX = G59 = 6` and the offset table has only `COORDS + 1`
rows, so `set_coord_offsets(7, …)` returns a range error and stores nothing,
`set_coord_system(7)` is rejected, and the programmed 5 mm offset is never
used by `active_coord_offset`. -/
theorem coord_system_seven_rejected :
    (cm_set_coord_offsets canonical_machine_init 7 (fun _ => 5) (fun _ => true)).1 =
      .error_input_value_range ∧
    (cm_set_coord_offsets canonical_machine_init 7 (fun _ => 5) (fun _ => true)).2 =
      canonical_machine_init ∧
    (cm_set_coord_system (cm_set_coord_offsets canonical_machine_init 7
        (fun _ => 5) (fun _ => true)).2 7).1 = .error_input_value_range ∧
    cm_get_active_coord_offset
      ((cm_set_coord_system (cm_set_coord_offsets canonical_machine_init 7
        (fun _ => 5) (fun _ => true)).2 7).2) 0 = 0 := by
  refine ⟨rfl, rfl, rfl, by norm_num [canonical_machine_init, cm_set_coord_offsets,
    cm_set_coord_system, cm_get_active_coord_offset, coordOffsetValue, withGm,
    cm0, gm0, gmx0]⟩

/-- Claim C3 amended: the coordinate-offset table exposes six
G10-programmable work offsets — for every coordinate-system index from 1
through 6 (G54..G59), `set_coord_offsets(system, offset, flags)` stores
per-axis offsets that `set_coord_system(n)` and `active_coord_offset(axis)`
subsequently use. -/
theorem coord_offsets_pipeline (m : Machine) (sys : Nat)
    (h1 : 1 ≤ sys) (h2 : sys ≤ COORDS) (offs : Axis → ℚ) (fl : Axis → Bool)
    (a : Axis) (hfl : fl a = true)
    (hov : m.gm.absolute_override = false)
    (hoe : m.gmx.origin_offset_enable = false) :
    (cm_set_coord_offsets m sys offs fl).1 = .ok ∧
    (cm_set_coord_system (cm_set_coord_offsets m sys offs fl).2 sys).1 = .ok ∧
    cm_get_active_coord_offset
      ((cm_set_coord_system (cm_set_coord_offsets m sys offs fl).2 sys).2) a =
      offs a := by
  have hand : 1 ≤ sys ∧ sys ≤ COORDS := ⟨h1, h2⟩
  have hlt : sys < COORDS + 1 := Nat.lt_succ_of_le h2
  refine ⟨?_, ?_, ?_⟩
  · unfold cm_set_coord_offsets
    rw [dif_pos hand]
  · unfold cm_set_coord_system cm_set_coord_offsets
    rw [dif_pos hand, if_pos hand]
  · unfold cm_set_coord_system cm_set_coord_offsets
    rw [dif_pos hand, if_pos hand]
    simp only [withGm, cm_get_active_coord_offset, coordOffsetValue]
    rw [if_neg ?hneg]
    case hneg => simp [hov]
    rw [dif_pos hlt]
    simp [Function.update, hfl, hoe]

/-- Witness for the amended claim C3 at a concrete input: program a 7 mm
offset for system 2 (G55), select it, and read it back. -/
theorem coord_offsets_pipeline_witness :
    (cm_set_coord_offsets canonical_machine_init 2 (fun _ => 7) (fun _ => true)).1 =
      .ok ∧
    (cm_set_coord_system (cm_set_coord_offsets canonical_machine_init 2
        (fun _ => 7) (fun _ => true)).2 2).1 = .ok ∧
    cm_get_active_coord_offset
      ((cm_set_coord_system (cm_set_coord_offsets canonical_machine_init 2
        (fun _ => 7) (fun _ => true)).2 2).2) 0 = 7 :=
  coord_offsets_pipeline canonical_machine_init 2 (by decide) (by decide)
    (fun _ => 7) (fun _ => true) 0 rfl rfl rfl

/-- The block `G21` (select millimeters). -/
def blkG21 : Block where
  words := [.G21]
  target := fun _ => 0
  target_flag := fun _ => false
  feed_rate := 0
  feed_flag := false
  parameter := 0
  l_word := 0

/-- The block `G0 X10`. -/
def blkG0X10 : Block where
  words := [.G0]
  target := fun a => if a = 0 then 10 else 0
  target_flag := fun a => decide (a = 0)
  feed_rate := 0
  feed_flag := false
  parameter := 0
  l_word := 0

/-- The block `G20` (select inches). -/
def blkG20 : Block where
  words := [.G20]
  target := fun _ => 0
  target_flag := fun _ => false
  feed_rate := 0
  feed_flag := false
  parameter := 0
  l_word := 0

theorem gm_cycle_start (m : Machine) : (cm_cycle_start m).gm = m.gm := by
  unfold cm_cycle_start
  split <;> rfl

theorem gmx_blockMotionMode (b : Block) (m : Machine) :
    (blockMotionMode b m).gmx = m.gmx := by
  unfold blockMotionMode
  split <;> rfl

theorem gc_simple_block (m : Machine) (b : Block)
    (hv : modalGroupViolation b.words = false)
    (h10 : b.words.contains .G10 = false)
    (haf : anyAxisFlag b.target_flag = false)
    (hff : b.feed_flag = false) :
    (gcNormalizeBlock m b).2 = blockMotionMode b (blockModalWrite m b) := by
  have h10' : GWord.G10 ∉ b.words := by simpa using h10
  unfold gcNormalizeBlock blockDispatch blockFeedWrite
  simp [hv, h10', haf, hff]

theorem gc_traverse_block (m : Machine) (b : Block)
    (hv : modalGroupViolation b.words = false)
    (h10 : b.words.contains .G10 = false)
    (haf : anyAxisFlag b.target_flag = true)
    (hff : b.feed_flag = false)
    (hmw : motionWordOf b.words = some .straight_traverse) :
    (gcNormalizeBlock m b).2 =
      (cm_straight_traverse (blockMotionMode b (blockModalWrite m b))
        (blockTargetMm m b) b.target_flag).2 := by
  have hbm : blockMotionMode b (blockModalWrite m b) =
      withGm (fun g => { g with motion_mode := .straight_traverse })
        (blockModalWrite m b) := by
    unfold blockMotionMode
    rw [hmw]
  have h10' : GWord.G10 ∉ b.words := by simpa using h10
  unfold gcNormalizeBlock blockDispatch blockFeedWrite
  simp [hv, h10', haf, hff, hbm, withGm]

theorem traverse_position (m : Machine) (t : Axis → ℚ) (fl : Axis → Bool) :
    (cm_straight_traverse m t fl).2.gmx.position =
      modelTargetValue
        (withGm (fun g => { g with motion_mode := .straight_traverse }) m) t fl := by
  have h : (cm_straight_traverse m t fl).2.gmx.position =
      (cm_cycle_start (cm_set_model_target
        (withGm (fun g => { g with motion_mode := .straight_traverse }) m)
        t fl)).gm.target := rfl
  rw [h, gm_cycle_start]
  rfl

/-- Claim C9: executing G21, then G0 X10, then G20 from the power-on state
leaves `gmx.position[X]` at exactly 10 mm: the G20/G21 round-trip introduces
no drift, because `gm`/`gmx` store millimeters and the ×25.4 inch conversion
happens only on entry from `gn` — a units-mode switch rewrites no stored
position or target. -/
theorem units_round_trip_no_drift :
    (gcNormalizeBlock (gcNormalizeBlock
        (gcNormalizeBlock canonical_machine_init blkG21).2 blkG0X10).2
        blkG20).2.gmx.position 0 = 10 ∧
    (∀ (m : Machine) (u : UnitsMode),
      (cm_set_units_mode m u).gmx.position = m.gmx.position ∧
      (cm_set_units_mode m u).gm.target = m.gm.target) ∧
    (∀ (m : Machine) (b : Block),
      (blockModalWrite m b).gmx.position = m.gmx.position ∧
      (blockModalWrite m b).gm.target = m.gm.target) := by
  refine ⟨?_, fun m u => ⟨rfl, rfl⟩, fun m b => ⟨rfl, rfl⟩⟩
  have hmw21 : motionWordOf blkG21.words = none := by decide
  have hmw20 : motionWordOf blkG20.words = none := by decide
  have hmw0 : motionWordOf blkG0X10.words = some .straight_traverse := by decide
  have hbm21 : ∀ m' : Machine, blockMotionMode blkG21 m' = m' := fun m' => by
    unfold blockMotionMode
    rw [hmw21]
  have hbm20 : ∀ m' : Machine, blockMotionMode blkG20 m' = m' := fun m' => by
    unfold blockMotionMode
    rw [hmw20]
  have hbm0 : ∀ m' : Machine, blockMotionMode blkG0X10 m' =
      withGm (fun g => { g with motion_mode := .straight_traverse }) m' :=
    fun m' => by
      unfold blockMotionMode
      rw [hmw0]
  rw [gc_simple_block canonical_machine_init blkG21 (by decide) (by decide)
    (by decide) rfl]
  rw [hbm21]
  rw [gc_traverse_block _ blkG0X10 (by decide) (by decide) (by decide) rfl
    (by decide)]
  rw [gc_simple_block _ blkG20 (by decide) (by decide) (by decide) rfl]
  rw [hbm20, hbm0]
  rw [show ∀ (m' : Machine) (b : Block),
    (blockModalWrite m' b).gmx.position = m'.gmx.position from fun _ _ => rfl]
  rw [traverse_position]
  norm_num [modelTargetValue, withGm, blockModalWrite, blockTargetMm,
    blockUnits, normalize_length, cm_get_active_coord_offset, coordOffsetValue,
    coordSelectOf, canonical_machine_init, cm0, gm0, gmx0,
    blkG21, blkG0X10, blkG20]
  decide

/-- State after a feedhold request is latched and the sequencing callback runs. -/
def holdSeqS0 (m : Machine) : Machine :=
  cm_feedhold_sequencing_callback (cm_request_feedhold m)

/-- State one hold-execution tick later (sync → plan). -/
def holdSeqS1 (m : Machine) : Machine := cm_hold_exec_tick (holdSeqS0 m)

/-- State one hold-execution tick later (plan → decel). -/
def holdSeqS2 (m : Machine) : Machine := cm_hold_exec_tick (holdSeqS1 m)

/-- State one hold-execution tick later (decel → hold). -/
def holdSeqS3 (m : Machine) : Machine := cm_hold_exec_tick (holdSeqS2 m)

/-- State after a cycle-start request is latched while holding and the
sequencing callback runs. -/
def holdSeqS4 (m : Machine) : Machine :=
  cm_feedhold_sequencing_callback (cm_request_cycle_start (holdSeqS3 m))

/-- State one hold-execution tick later (end_hold → off, motion → run). -/
def holdSeqS5 (m : Machine) : Machine := cm_hold_exec_tick (holdSeqS4 m)

/-- Claim C8: from a machining cycle with motion run and hold off, a
feedhold request drives the hold sub-state through off→sync→plan→decel→hold
with combined state HOLD; a cycle_start request received while holding
drives hold→end_hold→off with motion back to run and combined state RUN;
and a feedhold request while motion is not run leaves the automaton
(machine/cycle/motion/hold) unchanged. -/
theorem feedhold_cycle_start_sequencing (m : Machine)
    (hm : m.cm.machine_state = .cycle) (hc : m.cm.cycle_state = .machining)
    (hr : m.cm.motion_state = .run) (hh : m.cm.hold_state = .off)
    (hqf : m.cm.queue_flush_requested = false)
    (hcs : m.cm.cycle_start_requested = false) :
    (holdSeqS0 m).cm.hold_state = .sync ∧
    (holdSeqS0 m).cm.motion_state = .hold ∧
    (holdSeqS0 m).cm.combined_state = .hold ∧
    (holdSeqS1 m).cm.hold_state = .plan ∧
    (holdSeqS2 m).cm.hold_state = .decel ∧
    (holdSeqS3 m).cm.hold_state = .hold ∧
    (holdSeqS3 m).cm.combined_state = .hold ∧
    (holdSeqS4 m).cm.hold_state = .end_hold ∧
    (holdSeqS5 m).cm.hold_state = .off ∧
    (holdSeqS5 m).cm.motion_state = .run ∧
    (holdSeqS5 m).cm.combined_state = .run ∧
    (∀ m' : Machine, m'.cm.motion_state ≠ .run →
      m'.cm.queue_flush_requested = false →
      m'.cm.cycle_start_requested = false →
      (cm_feedhold_sequencing_callback (cm_request_feedhold m')).cm.machine_state =
        m'.cm.machine_state ∧
      (cm_feedhold_sequencing_callback (cm_request_feedhold m')).cm.cycle_state =
        m'.cm.cycle_state ∧
      (cm_feedhold_sequencing_callback (cm_request_feedhold m')).cm.motion_state =
        m'.cm.motion_state ∧
      (cm_feedhold_sequencing_callback (cm_request_feedhold m')).cm.hold_state =
        m'.cm.hold_state) := by
  have e0 : holdSeqS0 m =
      { m with cm := { m.cm with
          feedhold_requested := false,
          motion_state := .hold,
          hold_state := .sync,
          combined_state := .hold } } := by
    unfold holdSeqS0 cm_feedhold_sequencing_callback seqFeedhold seqQueueFlush
      seqCycleStart cm_request_feedhold cm_feedhold updateCombined
      cmCombinedStateOf
    simp [hr, hh, hqf, hcs, hm, hc]
  have e1 : holdSeqS1 m =
      { m with cm := { m.cm with
          feedhold_requested := false,
          motion_state := .hold,
          hold_state := .plan,
          combined_state := .hold } } := by
    unfold holdSeqS1 cm_hold_exec_tick updateCombined cmCombinedStateOf
    rw [e0]
    simp [hm, hc]
  have e2 : holdSeqS2 m =
      { m with cm := { m.cm with
          feedhold_requested := false,
          motion_state := .hold,
          hold_state := .decel,
          combined_state := .hold } } := by
    unfold holdSeqS2 cm_hold_exec_tick updateCombined cmCombinedStateOf
    rw [e1]
    simp [hm, hc]
  have e3 : holdSeqS3 m =
      { m with cm := { m.cm with
          feedhold_requested := false,
          motion_state := .hold,
          hold_state := .hold,
          combined_state := .hold } } := by
    unfold holdSeqS3 cm_hold_exec_tick updateCombined cmCombinedStateOf
    rw [e2]
    simp [hm, hc]
  have e4 : holdSeqS4 m =
      { m with cm := { m.cm with
          feedhold_requested := false,
          motion_state := .hold,
          hold_state := .end_hold,
          combined_state := .hold } } := by
    unfold holdSeqS4 cm_feedhold_sequencing_callback seqFeedhold seqQueueFlush
      seqCycleStart cm_request_cycle_start cm_feedhold updateCombined
      cmCombinedStateOf
    rw [e3]
    simp [hm, hc, hqf, hcs]
  have e5 : holdSeqS5 m =
      { m with cm := { m.cm with
          feedhold_requested := false,
          motion_state := .run,
          hold_state := .off,
          combined_state := .run } } := by
    unfold holdSeqS5 cm_hold_exec_tick updateCombined cmCombinedStateOf
    rw [e4]
    simp [hm, hc]
  refine ⟨by rw [e0], by rw [e0], by rw [e0], by rw [e1], by rw [e2],
    by rw [e3], by rw [e3], by rw [e4], by rw [e5], by rw [e5], by rw [e5],
    ?_⟩
  intro m' hne hqf' hcs'
  unfold cm_feedhold_sequencing_callback seqFeedhold seqQueueFlush
    seqCycleStart cm_request_feedhold
  simp [hne, hqf', hcs']

/-- A machine in a machining cycle with motion running. -/
def mRun : Machine :=
  { canonical_machine_init with cm := { cm0 with
      machine_state := .cycle, cycle_state := .machining,
      motion_state := .run, combined_state := .run } }

/-- Witness for claim C8 at a concrete running machine: the feedhold request
reaches sync/HOLD, the hold point is reached, and cycle start brings the
machine back to RUN. -/
theorem feedhold_cycle_start_sequencing_witness :
    (holdSeqS0 mRun).cm.hold_state = .sync ∧
    (holdSeqS3 mRun).cm.combined_state = .hold ∧
    (holdSeqS5 mRun).cm.motion_state = .run ∧
    (holdSeqS5 mRun).cm.combined_state = .run := by
  have h := feedhold_cycle_start_sequencing mRun rfl rfl rfl rfl rfl rfl
  exact ⟨h.1, h.2.2.2.2.2.2.1, h.2.2.2.2.2.2.2.2.2.1, h.2.2.2.2.2.2.2.2.2.2.1⟩

end CanonicalMachine
